import Mathlib

/-!
Shallow embedding of the SandboxManager class of the claude-agent-platform
repository (backend/src/services/sandbox-manager.ts).

The manager keeps an in-memory Map from session id to session record and
drives an external container runtime (docker) through shell commands.  Every
call into the runtime is modelled by an explicit outcome parameter (an
oracle), so the embedded functions are pure and quantify over every possible
behaviour of the backend.  Times are milliseconds since the epoch (Nat).
-/

namespace SandboxPlatform

/-- JavaScript string-or-default, as in `x || d` where `x` is a possibly
undefined string field: both `undefined` and the empty string are falsy and
fall through to the default. -/
def jsOrStr (x : Option String) (d : String) : String :=
  match x with
  | none => d
  | some s => if s = "" then d else s

/-- Value of the `code` property of a JavaScript error object: it may be
undefined, a number, or a string such as "ETIMEDOUT". -/
inductive JsCode where
  | undef
  | num (n : Int)
  | str (s : String)
deriving DecidableEq

/-- JavaScript truthiness of a `code` value. -/
def JsCode.truthy : JsCode → Bool
  | .undef => false
  | .num n => n ≠ 0
  | .str s => s ≠ ""

/-- The expression `error.code || 1` in the catch branch of executeCommand. -/
def JsCode.orOne (c : JsCode) : JsCode := if c.truthy then c else .num 1

/-- A JavaScript error value as read by the catch branch of executeCommand:
`killed`, `code`, `stdout` and `stderr` are optional properties, `message` is
the string every Error carries. -/
structure JsExecError where
  killed : Option Bool := none
  code : JsCode := .undef
  stdout : Option String := none
  stderr : Option String := none
  message : String := ""
deriving DecidableEq

/-- The SandboxSession interface (sandbox-manager.ts): one record per session
stored in the manager's Map. -/
structure SandboxSession where
  sessionId : String
  containerId : String
  createdAt : Nat
  lastActivityAt : Nat
  memoryLimit : String
  cpuLimit : String
  diskLimit : String
  timeoutMs : Nat
  isActive : Bool
deriving DecidableEq

/-- The ExecutionResult interface.  The exit code keeps the JavaScript typing
of `error.code || 1`, which can be a number or a string. -/
structure ExecutionResult where
  exitCode : JsCode
  stdout : String
  stderr : String
  durationMs : Nat
  timedOut : Bool
deriving DecidableEq

inductive FileOpType where
  | read
  | write
  | delete
  | list
deriving DecidableEq

/-- The FileOperation interface: type, path, optional content (write) and
optional recursive flag (delete). -/
structure FileOperation where
  type : FileOpType
  path : String
  content : Option String := none
  recursive : Option Bool := none
deriving DecidableEq

-- Class-level configuration constants of SandboxManager.
def dockerImageName : String := "claude-agent-sandbox:latest"
def baseMemoryLimit : String := "512m"
def baseCpuLimit : String := "1"
def baseTimeoutMs : Nat := 5 * 60 * 1000
def diskLimitGb : Nat := 1
def cleanupIntervalMs : Nat := 60 * 1000
def maxSessionAge : Nat := 30 * 60 * 1000

/-- The manager's `sessions: Map<string, SandboxSession>` as an association
list in insertion order. -/
abbrev Registry := List (String × SandboxSession)

/-- Map.get: the value stored under a key (first occurrence). -/
def lookupSession : Registry → String → Option SandboxSession
  | [], _ => none
  | (k, s) :: rest, id => if k = id then some s else lookupSession rest id

/-- Map.delete: drop the entry stored under a key. -/
def eraseSession (r : Registry) (id : String) : Registry :=
  r.filter (fun p => p.1 ≠ id)

/-- Mutation of the session object held in the Map (JavaScript records are
mutated in place through the reference returned by Map.get). -/
def modifySession (r : Registry) (id : String) (f : SandboxSession → SandboxSession) : Registry :=
  r.map (fun p => if p.1 = id then (p.1, f p.2) else p)

/-- A Map never holds two entries with the same key. -/
def registryWF (r : Registry) : Prop := (r.map Prod.fst).Nodup

instance (r : Registry) : Decidable (registryWF r) := by
  unfold registryWF; infer_instance

/-- The mutable state of a SandboxManager instance. -/
structure ManagerState where
  sessions : Registry
deriving DecidableEq

/-- The two errors validateSession can throw. -/
inductive SessionError where
  | notFound (sessionId : String)
  | notActive (sessionId : String)
deriving DecidableEq

/-- validateSession: throws when the id is absent from the Map or the stored
session has isActive false; otherwise returns the session. -/
def validateSession (st : ManagerState) (sessionId : String) :
    Except SessionError SandboxSession :=
  match lookupSession st.sessions sessionId with
  | none => .error (.notFound sessionId)
  | some s => if s.isActive then .ok s else .error (.notActive sessionId)

/-- The docker stop call, which may fail. -/
def dockerStop (stopSucceeds : Bool) : Except String Unit :=
  if stopSucceeds then .ok () else .error "docker stop failed"

/-- stopContainer wraps the docker call in a try/catch that only logs a
warning (the container might already be stopped), so it always returns
normally whatever the call did. -/
def stopContainer (stopSucceeds : Bool) : Unit :=
  match dockerStop stopSucceeds with
  | .ok _ => ()
  | .error _ => ()

/-- The docker rm -f call, which may fail. -/
def dockerRm (removeSucceeds : Bool) : Except String Unit :=
  if removeSucceeds then .ok () else .error "docker rm failed"

/-- removeContainer rethrows a failed docker rm as a new Error. -/
def removeContainer (removeSucceeds : Bool) : Except String Unit :=
  match dockerRm removeSucceeds with
  | .ok _ => .ok ()
  | .error e => .error ("Failed to remove container: " ++ e)

/-- Errors destroySession can throw: the id is not in the Map, or container
removal failed (the rethrown error from the try block). -/
inductive DestroyError where
  | notFound (sessionId : String)
  | removeFailed (msg : String)
deriving DecidableEq

/-- destroySession: looks the session up, stops and removes its container,
and on success sets isActive false and deletes the Map entry.  When
removeContainer throws, the catch block re-emits and rethrows, so the
assignments after it never run and the Map entry survives.  stopContainer
never throws (its failure is swallowed inside it). -/
def destroySession (st : ManagerState) (sessionId : String)
    (stopSucceeds removeSucceeds : Bool) :
    Except DestroyError Unit × ManagerState :=
  match lookupSession st.sessions sessionId with
  | none => (.error (.notFound sessionId), st)
  | some _session =>
    let _ := stopContainer stopSucceeds
    match removeContainer removeSucceeds with
    | .error e => (.error (.removeFailed e), st)
    | .ok _ =>
      let marked := modifySession st.sessions sessionId (fun s => { s with isActive := false })
      (.ok (), { st with sessions := eraseSession marked sessionId })

/-- The teardown steps of destroySession in source order. -/
inductive DestroyStep where
  | stopContext
  | removeContext
  | markInactive
  | deleteEntry
deriving DecidableEq

/-- The ordered sequence of steps destroySession performs on a session that is
present in the Map, as written in the source: stop the container, remove the
container, and only then set isActive false and delete the Map entry.  When
removal fails the trace stops there because the error is rethrown. -/
def destroySessionTrace (removeSucceeds : Bool) : List DestroyStep :=
  if removeSucceeds then
    [.stopContext, .removeContext, .markInactive, .deleteEntry]
  else
    [.stopContext, .removeContext]

/-- Outcome of the race inside executeInContainer between the watchdog timer
and the exec callback: the callback resolves with output, the callback
rejects with the spread error object carrying the captured output, or the
timer fires first. -/
inductive ExecOutcome where
  | completed (stdout stderr : String)
  | failed (e : JsExecError)
  | timerExpired
deriving DecidableEq

/-- The value the watchdog rejects with on expiry: a fresh
Error("Execution timeout exceeded").  A plain Error has a message but no
killed, code, stdout or stderr properties, and nothing is sent to the
container to kill the still-running exec. -/
def timeoutRejection : JsExecError :=
  { message := "Execution timeout exceeded" }

/-- executeInContainer as observed by its caller. -/
def executeInContainer (outcome : ExecOutcome) : Except JsExecError (String × String) :=
  match outcome with
  | .completed stdout stderr => .ok (stdout, stderr)
  | .failed e => .error e
  | .timerExpired => .error timeoutRejection

/-- executeCommand: validates the session, refreshes lastActivityAt, runs the
command, and translates both completion and failure into an ExecutionResult.
The catch branch reads timedOut from `error.killed === true` or
`error.code === "ETIMEDOUT"`, the exit code from `error.code || 1`, and the
streams from `error.stdout || ""` and
`error.stderr || error.message || "Unknown error"`. -/
def executeCommand (st : ManagerState) (sessionId : String)
    (now : Nat) (outcome : ExecOutcome) (durationMs : Nat) :
    Except SessionError ExecutionResult × ManagerState :=
  match validateSession st sessionId with
  | .error e => (.error e, st)
  | .ok _session =>
    let st1 : ManagerState :=
      { st with sessions :=
          modifySession st.sessions sessionId (fun s => { s with lastActivityAt := now }) }
    match executeInContainer outcome with
    | .ok (stdout, stderr) =>
      (.ok { exitCode := .num 0, stdout := stdout, stderr := stderr,
             durationMs := durationMs, timedOut := false }, st1)
    | .error e =>
      let timedOut : Bool :=
        if e.killed = some true ∨ e.code = JsCode.str "ETIMEDOUT" then true else false
      (.ok { exitCode := e.code.orOne,
             stdout := e.stdout.getD "",
             stderr := jsOrStr e.stderr (if e.message = "" then "Unknown error" else e.message),
             durationMs := durationMs,
             timedOut := timedOut }, st1)

/-- A call issued to the container runtime by the file-operation helpers. -/
inductive BackendCall where
  | readFile (containerId filePath : String)
  | writeFile (containerId filePath content : String)
  | deleteFile (containerId filePath : String) (recursive : Bool)
  | listFiles (containerId dirPath : String)
deriving DecidableEq

/-- Errors fileOperation can throw: the two validation errors, the missing
content error of the write branch, or a backend failure rethrown by the
catch block. -/
inductive FileOpError where
  | notFound (sessionId : String)
  | notActive (sessionId : String)
  | missingContent
  | backend (msg : String)
deriving DecidableEq

def FileOpError.ofSession : SessionError → FileOpError
  | .notFound id => .notFound id
  | .notActive id => .notActive id

/-- The value fileOperation returns: file content for read, null for write and
delete, a path list for list. -/
inductive FileOpValue where
  | content (s : String)
  | nothing
  | files (l : List String)
deriving DecidableEq

/-- Backend behaviour for the single runtime call a fileOperation makes. -/
structure FileBackend where
  readResult : Except String String := .ok ""
  writeResult : Except String Unit := .ok ()
  deleteResult : Except String Unit := .ok ()
  listResult : Except String String := .ok ""

/-- One output line of listFilesInContainer: a leading "/sandbox" is removed
(the JavaScript is line.replace with an anchored pattern). -/
def stripSandboxRoot (line : String) : String :=
  if line.startsWith "/sandbox" then line.drop 8 else line

/-- listFilesInContainer: runs find in the container, splits its stdout into
lines, keeps nonblank ones and strips the sandbox root; every failure is
caught and becomes the empty list. -/
def listFilesInContainer (listResult : Except String String) : List String :=
  match listResult with
  | .error _ => []
  | .ok stdout =>
    ((stdout.splitOn "\n").filter (fun line => line.trim ≠ "")).map stripSandboxRoot

/-- fileOperation: validates the session, refreshes lastActivityAt, prefixes
the operation path with the literal string "/sandbox" (no normalization and
no check of the resulting path), and dispatches on the operation type.  The
write branch first rejects a falsy content (absent or the empty string).
The third component collects the calls issued to the container runtime. -/
def fileOperation (st : ManagerState) (sessionId : String) (op : FileOperation)
    (now : Nat) (backend : FileBackend) :
    Except FileOpError FileOpValue × ManagerState × List BackendCall :=
  match validateSession st sessionId with
  | .error e => (.error (FileOpError.ofSession e), st, [])
  | .ok session =>
    let st1 : ManagerState :=
      { st with sessions :=
          modifySession st.sessions sessionId (fun s => { s with lastActivityAt := now }) }
    let sandboxPath := "/sandbox" ++ op.path
    match op.type with
    | .read =>
      match backend.readResult with
      | .ok content => (.ok (.content content), st1, [.readFile session.containerId sandboxPath])
      | .error e => (.error (.backend e), st1, [.readFile session.containerId sandboxPath])
    | .write =>
      match op.content with
      | none => (.error .missingContent, st1, [])
      | some c =>
        if c = "" then (.error .missingContent, st1, [])
        else
          match backend.writeResult with
          | .ok _ => (.ok .nothing, st1, [.writeFile session.containerId sandboxPath c])
          | .error e => (.error (.backend e), st1, [.writeFile session.containerId sandboxPath c])
    | .delete =>
      let recursive := op.recursive.getD false
      match backend.deleteResult with
      | .ok _ => (.ok .nothing, st1, [.deleteFile session.containerId sandboxPath recursive])
      | .error e => (.error (.backend e), st1, [.deleteFile session.containerId sandboxPath recursive])
    | .list =>
      (.ok (.files (listFilesInContainer backend.listResult)), st1,
        [.listFiles session.containerId sandboxPath])

/-- The fields of the parsed docker stats line that getSessionHealth reads;
each may be absent from the JSON object. -/
structure DockerStats where
  memUsage : Option String := none
  cpuUsage : Option String := none
  state : Option String := none
deriving DecidableEq

/-- The record getSessionHealth returns: the full shape on a successful stats
query, the degraded shape from the catch block otherwise. -/
inductive HealthStatus where
  | healthy (sessionId : String) (isActive : Bool) (createdAt lastActivityAt : Nat)
      (memoryUsage cpuUsage containerStatus : String)
  | degraded (sessionId : String) (isActive : Bool) (error : String)
deriving DecidableEq

/-- getSessionHealth: validates the session, then queries docker stats.  Any
failure of the query or of JSON parsing lands in the catch block, which
returns the degraded record instead of throwing.  lastActivityAt is not
refreshed by a health check. -/
def getSessionHealth (st : ManagerState) (sessionId : String)
    (statsResult : Except String DockerStats) : Except SessionError HealthStatus :=
  match validateSession st sessionId with
  | .error e => .error e
  | .ok session =>
    match statsResult with
    | .ok stats =>
      .ok (.healthy sessionId session.isActive session.createdAt session.lastActivityAt
        (jsOrStr stats.memUsage "N/A") (jsOrStr stats.cpuUsage "N/A")
        (jsOrStr stats.state "running"))
    | .error _ =>
      .ok (.degraded sessionId session.isActive "Failed to retrieve health status")

/-- The limits argument of updateSessionLimits; every field is optional. -/
structure LimitsUpdate where
  memoryLimit : Option String := none
  cpuLimit : Option String := none
  timeoutMs : Option Nat := none
deriving DecidableEq

/-- JavaScript truthiness of an optional string field as tested by
`if (limits.memoryLimit)`: absent and empty values are falsy. -/
def optStrTruthy : Option String → Bool
  | none => false
  | some s => s ≠ ""

/-- JavaScript truthiness of the optional numeric timeout field: absent and
zero values are falsy. -/
def optNatTruthy : Option Nat → Bool
  | none => false
  | some n => n ≠ 0

/-- The three truthiness-guarded assignments at the top of
updateSessionLimits. -/
def applyLimits (limits : LimitsUpdate) (s : SandboxSession) : SandboxSession :=
  let s1 :=
    match limits.memoryLimit with
    | some m => if m ≠ "" then { s with memoryLimit := m } else s
    | none => s
  let s2 :=
    match limits.cpuLimit with
    | some c => if c ≠ "" then { s1 with cpuLimit := c } else s1
    | none => s1
  match limits.timeoutMs with
  | some t => if t ≠ 0 then { s2 with timeoutMs := t } else s2
  | none => s2

/-- Errors updateSessionLimits can throw: the two validation errors or the
rethrown docker update failure. -/
inductive UpdateError where
  | notFound (sessionId : String)
  | notActive (sessionId : String)
  | updateFailed (msg : String)
deriving DecidableEq

def UpdateError.ofSession : SessionError → UpdateError
  | .notFound id => .notFound id
  | .notActive id => .notActive id

/-- updateSessionLimits: validates the session, assigns each truthy field of
the limits argument onto the session record, and only then, when a truthy
memoryLimit was given, calls docker update; if that call fails a new Error is
thrown, with the session record keeping the values just assigned. -/
def updateSessionLimits (st : ManagerState) (sessionId : String)
    (limits : LimitsUpdate) (dockerUpdateSucceeds : Bool) :
    Except UpdateError Unit × ManagerState :=
  match validateSession st sessionId with
  | .error e => (.error (UpdateError.ofSession e), st)
  | .ok _session =>
    let st1 : ManagerState :=
      { st with sessions := modifySession st.sessions sessionId (applyLimits limits) }
    if optStrTruthy limits.memoryLimit then
      if dockerUpdateSucceeds then (.ok (), st1)
      else (.error (.updateFailed "Failed to update memory limit"), st1)
    else
      (.ok (), st1)

/-- The eligibility test of cleanupInactiveSessions:
`now - session.lastActivityAt.getTime() > this.maxSessionAge`.  JavaScript
date arithmetic is signed, so the difference is taken in the integers. -/
def sessionExpired (now : Nat) (s : SandboxSession) : Bool :=
  (now : Int) - (s.lastActivityAt : Int) > (maxSessionAge : Int)

/-- cleanupInactiveSessions: first collects the ids of every stored session
whose idle time strictly exceeds maxSessionAge, then destroys them one by
one, each destroy wrapped in its own try/catch so a failure only emits an
error event and the loop continues with the next id. -/
def cleanupInactiveSessions (st : ManagerState) (now : Nat)
    (stopSucceeds removeSucceeds : String → Bool) : ManagerState :=
  let sessionsToClean :=
    (st.sessions.filter (fun p => sessionExpired now p.2)).map (fun p => p.1)
  sessionsToClean.foldl
    (fun acc sessionId =>
      (destroySession acc sessionId (stopSucceeds sessionId) (removeSucceeds sessionId)).2)
    st

/-- createSession: builds a fresh session record from the manager defaults
and stores it (Map.set appends a new key in insertion order).  The generated
id and the container id returned by docker run are oracle parameters. -/
def createSession (st : ManagerState) (now : Nat) (sessionId containerId : String) :
    ManagerState × String :=
  let session : SandboxSession :=
    { sessionId := sessionId, containerId := containerId,
      createdAt := now, lastActivityAt := now,
      memoryLimit := baseMemoryLimit, cpuLimit := baseCpuLimit,
      diskLimit := toString diskLimitGb ++ "gb", timeoutMs := baseTimeoutMs,
      isActive := true }
  ({ st with sessions := st.sessions ++ [(sessionId, session)] }, sessionId)

/-- listSessions: the stored sessions whose isActive flag is set. -/
def listSessions (st : ManagerState) : List SandboxSession :=
  (st.sessions.map Prod.snd).filter (fun s => s.isActive)

-- Concrete fixtures used by witnesses and counterexamples.

/-- A session as createSession builds it at time 0, with ids "s1"/"c1". -/
def sess1 : SandboxSession :=
  { sessionId := "s1", containerId := "c1", createdAt := 0, lastActivityAt := 0,
    memoryLimit := baseMemoryLimit, cpuLimit := baseCpuLimit, diskLimit := "1gb",
    timeoutMs := baseTimeoutMs, isActive := true }

/-- A manager holding exactly sess1. -/
def st0 : ManagerState := { sessions := [("s1", sess1)] }

/-- An expired session (no activity since time 0). -/
def sessOld : SandboxSession := { sess1 with sessionId := "old", containerId := "cOld" }

/-- A second expired session, whose teardown will be made to fail. -/
def sessBad : SandboxSession := { sess1 with sessionId := "bad", containerId := "cBad" }

/-- A recently active session. -/
def sessNew : SandboxSession :=
  { sess1 with sessionId := "new", containerId := "cNew", lastActivityAt := 10000000 }

/-- A manager holding the three reaper fixtures. -/
def stReap : ManagerState :=
  { sessions := [("old", sessOld), ("bad", sessBad), ("new", sessNew)] }

/-- A backend whose read returns the host passwd file, as it would if a
traversal path escaped the sandbox root. -/
def backendPasswd : FileBackend := { readResult := .ok "root:x:0:0:root:/root:/bin/bash" }

/-!
Helper lemmas about the registry operations and destroySession, shared by the
claim theorems below.
-/

theorem lookup_modify_self (r : Registry) (id : String)
    (f : SandboxSession → SandboxSession) :
    lookupSession (modifySession r id f) id = (lookupSession r id).map f := by
  induction r with
  | nil => rfl
  | cons p rest ih =>
    obtain ⟨k, s⟩ := p
    by_cases h : k = id
    · subst h
      simp only [modifySession, List.map_cons]
      simp only [eq_self_iff_true, if_true]
      simp [lookupSession]
    · simp only [modifySession, List.map_cons, if_neg h] at *
      simp only [lookupSession, if_neg h]
      exact ih

theorem lookup_modify_other (r : Registry) (id id2 : String)
    (f : SandboxSession → SandboxSession) (h : id2 ≠ id) :
    lookupSession (modifySession r id f) id2 = lookupSession r id2 := by
  induction r with
  | nil => rfl
  | cons p rest ih =>
    obtain ⟨k, s⟩ := p
    by_cases hk : k = id
    · have hk2 : k ≠ id2 := by
        intro he
        exact h (he ▸ hk)
      simp only [modifySession, List.map_cons, if_pos hk]
      simp only [lookupSession, if_neg hk2]
      simpa [modifySession] using ih
    · simp only [modifySession, List.map_cons, if_neg hk]
      by_cases hk2 : k = id2
      · simp [lookupSession, hk2]
      · simp only [lookupSession, if_neg hk2]
        simpa [modifySession] using ih

theorem lookup_erase_self (r : Registry) (id : String) :
    lookupSession (eraseSession r id) id = none := by
  induction r with
  | nil => rfl
  | cons p rest ih =>
    obtain ⟨k, s⟩ := p
    by_cases h : k = id
    · simpa [eraseSession, h] using ih
    · simp only [eraseSession, List.filter_cons] at *
      simp only [decide_eq_true_eq]
      rw [if_pos (by exact h)]
      simp only [lookupSession, if_neg h]
      exact ih

theorem lookup_erase_other (r : Registry) (id id2 : String) (h : id2 ≠ id) :
    lookupSession (eraseSession r id) id2 = lookupSession r id2 := by
  induction r with
  | nil => rfl
  | cons p rest ih =>
    obtain ⟨k, s⟩ := p
    by_cases hk : k = id
    · have hk2 : k ≠ id2 := by
        intro he
        exact h (he ▸ hk)
      simp only [eraseSession, List.filter_cons, decide_eq_true_eq] at *
      rw [if_neg (by simpa using hk)]
      simp only [lookupSession, if_neg hk2]
      exact ih
    · simp only [eraseSession, List.filter_cons, decide_eq_true_eq] at *
      rw [if_pos (by exact hk)]
      by_cases hk2 : k = id2
      · simp [lookupSession, hk2]
      · simp only [lookupSession, if_neg hk2]
        exact ih

theorem mem_of_lookup (r : Registry) (k : String) (v : SandboxSession)
    (h : lookupSession r k = some v) : (k, v) ∈ r := by
  induction r with
  | nil => cases h
  | cons p rest ih =>
    obtain ⟨k1, v1⟩ := p
    by_cases hk : k1 = k
    · simp only [lookupSession, if_pos hk] at h
      injection h with h
      subst h
      subst hk
      exact List.mem_cons_self _ _
    · simp only [lookupSession, if_neg hk] at h
      exact List.mem_cons_of_mem _ (ih h)

theorem lookup_of_mem_wf (r : Registry) (k : String) (v : SandboxSession)
    (hwf : registryWF r) (hmem : (k, v) ∈ r) : lookupSession r k = some v := by
  induction r with
  | nil => cases hmem
  | cons p rest ih =>
    obtain ⟨k1, v1⟩ := p
    have hwf2 : k1 ∉ rest.map Prod.fst ∧ registryWF rest := by
      simpa [registryWF, List.nodup_cons] using hwf
    rcases List.mem_cons.mp hmem with heq | hmem2
    · rw [Prod.mk.injEq] at heq
      obtain ⟨h1, h2⟩ := heq
      subst h1
      subst h2
      simp [lookupSession]
    · by_cases hk : k1 = k
      · exfalso
        apply hwf2.1
        subst hk
        exact List.mem_map.mpr ⟨(k1, v), hmem2, rfl⟩
      · simp only [lookupSession, if_neg hk]
        exact ih hwf2.2 hmem2

theorem validateSession_ok (st : ManagerState) (id : String) (s : SandboxSession)
    (h : lookupSession st.sessions id = some s) (ha : s.isActive = true) :
    validateSession st id = .ok s := by
  unfold validateSession
  rw [h]
  simp [ha]

theorem destroy_state_other (st : ManagerState) (id id2 : String) (so ro : Bool)
    (h : id2 ≠ id) :
    lookupSession (destroySession st id so ro).2.sessions id2 =
      lookupSession st.sessions id2 := by
  unfold destroySession
  cases hl : lookupSession st.sessions id
  · rfl
  · cases ro
    · simp [removeContainer, dockerRm]
    · simp [removeContainer, dockerRm, lookup_erase_other _ _ _ h,
        lookup_modify_other _ _ _ _ h]

theorem destroy_state_absent (st : ManagerState) (id : String) (so ro : Bool)
    (h : lookupSession st.sessions id = none) :
    (destroySession st id so ro).2 = st := by
  unfold destroySession
  rw [h]

theorem destroy_removes (st : ManagerState) (id : String) (so : Bool) :
    lookupSession (destroySession st id so true).2.sessions id = none := by
  unfold destroySession
  cases hl : lookupSession st.sessions id
  · exact hl
  · simp [removeContainer, dockerRm, lookup_erase_self]

theorem foldl_destroy_other (l : List String) (st : ManagerState) (id : String)
    (so ro : String → Bool) (h : ∀ j ∈ l, j ≠ id) :
    lookupSession
      (l.foldl (fun acc j => (destroySession acc j (so j) (ro j)).2) st).sessions id
      = lookupSession st.sessions id := by
  induction l generalizing st with
  | nil => rfl
  | cons j rest ih =>
    simp only [List.foldl_cons]
    rw [ih _ (fun x hx => h x (List.mem_cons_of_mem _ hx))]
    exact destroy_state_other st j id (so j) (ro j)
      (fun he => h j (List.mem_cons_self _ _) he.symm)

theorem foldl_destroy_none (l : List String) (st : ManagerState) (id : String)
    (so ro : String → Bool) (h : lookupSession st.sessions id = none) :
    lookupSession
      (l.foldl (fun acc j => (destroySession acc j (so j) (ro j)).2) st).sessions id
      = none := by
  induction l generalizing st with
  | nil => exact h
  | cons j rest ih =>
    simp only [List.foldl_cons]
    apply ih
    by_cases hj : j = id
    · subst hj
      rw [destroy_state_absent _ _ _ _ h]
      exact h
    · rw [destroy_state_other st j id _ _ (fun he => hj he.symm)]
      exact h

theorem foldl_destroy_mem (l : List String) (st : ManagerState) (id : String)
    (so ro : String → Bool) (hmem : id ∈ l) (hro : ro id = true) :
    lookupSession
      (l.foldl (fun acc j => (destroySession acc j (so j) (ro j)).2) st).sessions id
      = none := by
  induction l generalizing st with
  | nil => cases hmem
  | cons j rest ih =>
    simp only [List.foldl_cons]
    by_cases hj : j = id
    · subst hj
      apply foldl_destroy_none
      rw [hro]
      exact destroy_removes st j (so j)
    · rcases List.mem_cons.mp hmem with h1 | h2
      · exact absurd h1.symm hj
      · exact ih _ h2

theorem updateSessionLimits_state (st : ManagerState) (id : String)
    (s : SandboxSession) (limits : LimitsUpdate) (dockerOk : Bool)
    (hv : validateSession st id = .ok s) :
    (updateSessionLimits st id limits dockerOk).2 =
      { st with sessions := modifySession st.sessions id (applyLimits limits) } := by
  unfold updateSessionLimits
  rw [hv]
  by_cases hb : optStrTruthy limits.memoryLimit = true
  · cases dockerOk <;> simp [hb]
  · simp [hb]

theorem applyLimits_def (m c : Option String) (t : Option Nat) (s : SandboxSession) :
    applyLimits { memoryLimit := m, cpuLimit := c, timeoutMs := t } s =
      { s with
        memoryLimit := if optStrTruthy m then m.getD "" else s.memoryLimit,
        cpuLimit := if optStrTruthy c then c.getD "" else s.cpuLimit,
        timeoutMs := if optNatTruthy t then t.getD 0 else s.timeoutMs } := by
  cases m <;> cases c <;> cases t <;>
    simp only [applyLimits, optStrTruthy, optNatTruthy, Option.getD_some,
      Option.getD_none, decide_eq_true_eq, Bool.false_eq_true, if_false] <;>
    split_ifs <;>
    rfl

theorem applyLimits_fields (limits : LimitsUpdate) (s : SandboxSession) :
    ((applyLimits limits s).memoryLimit =
      if optStrTruthy limits.memoryLimit then limits.memoryLimit.getD "" else s.memoryLimit) ∧
    ((applyLimits limits s).cpuLimit =
      if optStrTruthy limits.cpuLimit then limits.cpuLimit.getD "" else s.cpuLimit) ∧
    ((applyLimits limits s).timeoutMs =
      if optNatTruthy limits.timeoutMs then limits.timeoutMs.getD 0 else s.timeoutMs) ∧
    (applyLimits limits s).sessionId = s.sessionId ∧
    (applyLimits limits s).containerId = s.containerId ∧
    (applyLimits limits s).createdAt = s.createdAt ∧
    (applyLimits limits s).lastActivityAt = s.lastActivityAt ∧
    (applyLimits limits s).diskLimit = s.diskLimit ∧
    (applyLimits limits s).isActive = s.isActive := by
  obtain ⟨m, c, t⟩ := limits
  rw [applyLimits_def]
  exact ⟨rfl, rfl, rfl, rfl, rfl, rfl, rfl, rfl, rfl⟩

/-!
Claim theorems.
-/

/-- C1 counterexample: the claim says destroySession always removes the
Registry entry before it returns, even when removing the backing context
fails.  On the concrete one-session manager st0, a destroy whose docker rm
fails surfaces the error but leaves the Registry entry in place. -/
theorem destroySession_removeFailure_keeps_entry :
    (destroySession st0 "s1" true false).1 =
      Except.error (DestroyError.removeFailed "Failed to remove container: docker rm failed") ∧
    lookupSession (destroySession st0 "s1" true false).2.sessions "s1" = some sess1 :=
  ⟨rfl, rfl⟩

/-- C1 amended: for every session present in the Registry, destroySession
removes the Registry entry when the provider remove succeeds — a stop
failure is swallowed inside stopContainer and never prevents removal — but
when the provider remove fails the error is surfaced and the Registry entry
is NOT removed: the manager state is exactly unchanged, so the identifier
stays valid. -/
theorem destroySession_registry_removal (st : ManagerState) (id : String)
    (so : Bool) (s : SandboxSession) (h : lookupSession st.sessions id = some s) :
    ((destroySession st id so true).1 = Except.ok () ∧
      lookupSession (destroySession st id so true).2.sessions id = none) ∧
    ((destroySession st id so false).1 =
        Except.error (DestroyError.removeFailed "Failed to remove container: docker rm failed") ∧
      (destroySession st id so false).2 = st) := by
  refine ⟨⟨?_, destroy_removes st id so⟩, ?_, ?_⟩
  · unfold destroySession
    rw [h]
    simp [removeContainer, dockerRm]
  · unfold destroySession
    rw [h]
    simp [removeContainer, dockerRm]
  · unfold destroySession
    rw [h]
    simp [removeContainer, dockerRm]

/-- Witness for C1 amended: on st0, a destroy whose stop fails but whose
remove succeeds still deletes the Registry entry. -/
theorem destroySession_registry_removal_witness :
    lookupSession (destroySession st0 "s1" false true).2.sessions "s1" = none :=
  ((destroySession_registry_removal st0 "s1" false sess1 rfl).1).2

/-- C2 (code bug): on timer expiry the watchdog rejects with a plain
Error("Execution timeout exceeded"), which carries neither the killed flag
nor the ETIMEDOUT code the catch branch tests for, so executeCommand returns
timedOut = false with exit code 1 — not the timedOut = true / killed exit
code the specification demands — and nothing terminates the in-flight exec. -/
theorem executeCommand_timer_expiry_result :
    (executeCommand st0 "s1" 1000 ExecOutcome.timerExpired 300001).1 =
      Except.ok { exitCode := JsCode.num 1, stdout := "",
                  stderr := "Execution timeout exceeded", durationMs := 300001,
                  timedOut := false } :=
  rfl

/-- C3 counterexample: the claim says a traversal path fails with InvalidPath
and never reaches the backend.  On st0, a read of "/../../etc/passwd"
succeeds and a read call for "/sandbox/../../etc/passwd" is issued to the
container runtime. -/
theorem fileOperation_traversal_reaches_backend :
    (fileOperation st0 "s1" { type := FileOpType.read, path := "/../../etc/passwd" }
        1000 backendPasswd).2.2 =
      [BackendCall.readFile "c1" "/sandbox/../../etc/passwd"] ∧
    (fileOperation st0 "s1" { type := FileOpType.read, path := "/../../etc/passwd" }
        1000 backendPasswd).1 =
      Except.ok (FileOpValue.content "root:x:0:0:root:/root:/bin/bash") :=
  ⟨rfl, rfl⟩

/-- C3 amended: fileOperation performs no path validation at all: for every
valid session and every path, it prefixes the raw path with the literal
"/sandbox" and issues the operation to the backend, traversal segments
included; no InvalidPath failure exists in the code. -/
theorem fileOperation_no_path_validation (st : ManagerState) (id : String)
    (s : SandboxSession) (p : String) (now : Nat) (backend : FileBackend)
    (h : lookupSession st.sessions id = some s) (ha : s.isActive = true) :
    (fileOperation st id { type := FileOpType.read, path := p } now backend).2.2 =
      [BackendCall.readFile s.containerId ("/sandbox" ++ p)] := by
  unfold fileOperation
  rw [validateSession_ok st id s h ha]
  cases hx : backend.readResult <;> simp [hx]

/-- Witness for C3 amended: a traversal read on st0 issues a backend call. -/
theorem fileOperation_no_path_validation_witness :
    (fileOperation st0 "s1" { type := FileOpType.read, path := "/../x" } 1000
        { }).2.2 = [BackendCall.readFile sess1.containerId ("/sandbox" ++ "/../x")] :=
  fileOperation_no_path_validation st0 "s1" sess1 "/../x" 1000 { } rfl rfl

/-- C4: for every existing active session, executeCommand never throws — the
returned value is Except.ok for every behaviour of the in-container
execution (completion, failure, timer expiry) — and every error it does
return is exactly a validation error (SessionNotFound / SessionInactive)
produced by validateSession. -/
theorem executeCommand_only_validation_errors (st : ManagerState) (id : String)
    (now durationMs : Nat) (outcome : ExecOutcome) :
    (∀ s, lookupSession st.sessions id = some s → s.isActive = true →
      ∃ r, (executeCommand st id now outcome durationMs).1 = Except.ok r) ∧
    (∀ e, (executeCommand st id now outcome durationMs).1 = Except.error e →
      validateSession st id = Except.error e) := by
  constructor
  · intro s hl ha
    unfold executeCommand
    rw [validateSession_ok st id s hl ha]
    cases hx : executeInContainer outcome with
    | ok p =>
      obtain ⟨a, b⟩ := p
      refine ⟨{ exitCode := JsCode.num 0, stdout := a, stderr := b,
                durationMs := durationMs, timedOut := false }, ?_⟩
      simp [hx]
    | error e =>
      refine ⟨{ exitCode := e.code.orOne, stdout := e.stdout.getD "",
                stderr := jsOrStr e.stderr
                  (if e.message = "" then "Unknown error" else e.message),
                durationMs := durationMs,
                timedOut := if e.killed = some true ∨ e.code = JsCode.str "ETIMEDOUT"
                  then true else false }, ?_⟩
      simp [hx]
  · intro e he
    unfold executeCommand at he
    cases hv : validateSession st id with
    | error ev =>
      rw [hv] at he
      simp only at he
      injection he with he2
      rw [he2]
    | ok s =>
      rw [hv] at he
      cases hx : executeInContainer outcome with
      | ok p =>
        obtain ⟨a, b⟩ := p
        rw [hx] at he
        simp at he
      | error e2 =>
        rw [hx] at he
        simp at he

/-- Witness for C4: on st0 a completed command yields an ok result. -/
theorem executeCommand_only_validation_errors_witness :
    ((executeCommand st0 "s1" 1000 (ExecOutcome.completed "hello" "") 5).1).toOption.isSome
      = true := by
  obtain ⟨r, hr⟩ :=
    (executeCommand_only_validation_errors st0 "s1" 1000 5
      (ExecOutcome.completed "hello" "")).1 sess1 rfl rfl
  rw [hr]
  rfl

/-- C5 counterexample: the claim says a failed memory-limit update rolls the
in-memory Session limits back to their pre-update values.  On st0, after a
failed update to "1g", the stored session keeps memoryLimit "1g" even though
the pre-update value was "512m". -/
theorem updateSessionLimits_failure_keeps_new_values :
    (updateSessionLimits st0 "s1" { memoryLimit := some "1g" } false).1 =
      Except.error (UpdateError.updateFailed "Failed to update memory limit") ∧
    lookupSession (updateSessionLimits st0 "s1"
        { memoryLimit := some "1g" } false).2.sessions "s1" =
      some { sess1 with memoryLimit := "1g" } ∧
    sess1.memoryLimit = "512m" :=
  ⟨rfl, rfl, rfl⟩

/-- C5 amended: when the provider cannot apply a (truthy) memory-limit
change, updateSessionLimits fails with the limit-update error, but the
in-memory Session keeps the freshly assigned limit values — there is no
rollback, so recorded and applied limits diverge. -/
theorem updateSessionLimits_failure_no_rollback (st : ManagerState) (id : String)
    (s : SandboxSession) (limits : LimitsUpdate)
    (h : lookupSession st.sessions id = some s) (ha : s.isActive = true)
    (hm : optStrTruthy limits.memoryLimit = true) :
    (updateSessionLimits st id limits false).1 =
      Except.error (UpdateError.updateFailed "Failed to update memory limit") ∧
    lookupSession (updateSessionLimits st id limits false).2.sessions id =
      some (applyLimits limits s) := by
  constructor
  · unfold updateSessionLimits
    rw [validateSession_ok st id s h ha]
    simp [hm]
  · rw [updateSessionLimits_state st id s limits false (validateSession_ok st id s h ha)]
    simp [lookup_modify_self, h]

/-- Witness for C5 amended: on st0 the failed update keeps the new value. -/
theorem updateSessionLimits_failure_no_rollback_witness :
    lookupSession (updateSessionLimits st0 "s1"
        { memoryLimit := some "2g" } false).2.sessions "s1" =
      some (applyLimits { memoryLimit := some "2g" } sess1) :=
  (updateSessionLimits_failure_no_rollback st0 "s1" sess1
    { memoryLimit := some "2g" } rfl rfl rfl).2

/-- C6 counterexample: the claim says destroySession marks isActive false as
its first step, before stopping and removing the context.  The source trace
begins with the stop step, not the inactive mark; and after a destroy whose
remove failed, the session is still fully operational: executeCommand on the
same identifier succeeds. -/
theorem destroySession_teardown_precedes_inactive_mark :
    (destroySessionTrace true).head? = some DestroyStep.stopContext ∧
    DestroyStep.stopContext ≠ DestroyStep.markInactive ∧
    (executeCommand (destroySession st0 "s1" true false).2 "s1" 1000
        (ExecOutcome.completed "still alive" "") 5).1 =
      Except.ok { exitCode := JsCode.num 0, stdout := "still alive", stderr := "",
                  durationMs := 5, timedOut := false } :=
  ⟨rfl, by decide, rfl⟩

/-- C6 amended: destroySession performs teardown first — it stops and removes
the context and only after a successful removal marks isActive false,
immediately before deleting the Registry entry; when removal fails the
session record is completely unchanged (still active), so operations on the
identifier can still succeed. -/
theorem destroySession_inactive_marking_order (st : ManagerState) (id : String)
    (so : Bool) (s : SandboxSession) (h : lookupSession st.sessions id = some s) :
    destroySessionTrace true =
      [DestroyStep.stopContext, DestroyStep.removeContext,
       DestroyStep.markInactive, DestroyStep.deleteEntry] ∧
    (destroySession st id so false).2 = st ∧
    lookupSession (destroySession st id so false).2.sessions id = some s := by
  refine ⟨rfl, ?_, ?_⟩
  · unfold destroySession
    rw [h]
    simp [removeContainer, dockerRm]
  · unfold destroySession
    rw [h]
    simp [removeContainer, dockerRm, h]

/-- Witness for C6 amended: on st0 a failed removal leaves the entry as is. -/
theorem destroySession_inactive_marking_order_witness :
    lookupSession (destroySession st0 "s1" true false).2.sessions "s1" = some sess1 :=
  (destroySession_inactive_marking_order st0 "s1" true sess1 rfl).2.2

/-- C7: on a reaper tick, every stored session whose idle time (now minus
lastActivityAt) strictly exceeds maxSessionAge and whose teardown succeeds is
removed from the Registry, every session with more recent activity is left
exactly as it was, and a teardown failure for one eligible session (removeOk
false for it) does not prevent the removal of the other eligible sessions in
the same sweep, since removeOk is arbitrary elsewhere. -/
theorem cleanupInactiveSessions_spec (st : ManagerState) (now : Nat)
    (stopOk removeOk : String → Bool) (hwf : registryWF st.sessions) :
    (∀ id s, lookupSession st.sessions id = some s → sessionExpired now s = false →
      lookupSession (cleanupInactiveSessions st now stopOk removeOk).sessions id = some s) ∧
    (∀ id s, lookupSession st.sessions id = some s → sessionExpired now s = true →
      removeOk id = true →
      lookupSession (cleanupInactiveSessions st now stopOk removeOk).sessions id = none) := by
  constructor
  · intro id s hl hex
    have hne : ∀ j ∈ (st.sessions.filter (fun p => sessionExpired now p.2)).map
        (fun p => p.1), j ≠ id := by
      intro j hj hji
      subst hji
      obtain ⟨p, hmem, hk⟩ := List.mem_map.mp hj
      obtain ⟨k, s2⟩ := p
      have hk2 : k = j := hk
      subst hk2
      obtain ⟨hmem2, hcond⟩ := List.mem_filter.mp hmem
      have hlk := lookup_of_mem_wf st.sessions k s2 hwf hmem2
      rw [hl] at hlk
      injection hlk with hss
      subst hss
      simp only at hcond
      rw [hex] at hcond
      exact Bool.noConfusion hcond
    exact (foldl_destroy_other _ st id stopOk removeOk hne).trans hl
  · intro id s hl hex hro
    exact foldl_destroy_mem _ st id stopOk removeOk
      (List.mem_map.mpr ⟨(id, s),
        List.mem_filter.mpr ⟨mem_of_lookup _ _ _ hl, by simpa using hex⟩, rfl⟩)
      hro

/-- Witness for C7: on the three-session fixture, at a time when old and bad
are idle past the threshold and new is not, a sweep in which the teardown of
bad fails still removes old and leaves new untouched. -/
theorem cleanupInactiveSessions_spec_witness :
    lookupSession (cleanupInactiveSessions stReap 1800001 (fun _ => true)
        (fun j => j != "bad")).sessions "old" = none ∧
    lookupSession (cleanupInactiveSessions stReap 1800001 (fun _ => true)
        (fun j => j != "bad")).sessions "new" = some sessNew := by
  have hspec := cleanupInactiveSessions_spec stReap 1800001 (fun _ => true)
    (fun j => j != "bad") (by decide)
  exact ⟨hspec.2 "old" sessOld rfl (by decide) (by decide),
    hspec.1 "new" sessNew rfl (by decide)⟩

/-- C8 counterexample: the claim says updateSessionLimits applies exactly the
provided fields.  On st0, providing timeoutMs = 0 succeeds but changes
nothing: the stored session still has its old timeout 300000, because the
truthiness test treats the provided 0 as absent. -/
theorem updateSessionLimits_zero_timeout_ignored :
    (updateSessionLimits st0 "s1" { timeoutMs := some 0 } true).1 = Except.ok () ∧
    lookupSession (updateSessionLimits st0 "s1"
        { timeoutMs := some 0 } true).2.sessions "s1" = some sess1 ∧
    sess1.timeoutMs = 300000 :=
  ⟨rfl, rfl, rfl⟩

/-- C8 amended: updateSessionLimits applies exactly the provided fields whose
values are truthy (non-empty string limits, nonzero timeout); a provided
falsy value (empty string or zero) is ignored exactly like an absent field;
every other field of the session and every other session are unchanged. -/
theorem updateSessionLimits_truthy_fields_only (st : ManagerState) (id : String)
    (s : SandboxSession) (limits : LimitsUpdate) (dockerOk : Bool)
    (h : lookupSession st.sessions id = some s) (ha : s.isActive = true) :
    lookupSession (updateSessionLimits st id limits dockerOk).2.sessions id =
      some (applyLimits limits s) ∧
    ((applyLimits limits s).memoryLimit =
      if optStrTruthy limits.memoryLimit then limits.memoryLimit.getD "" else s.memoryLimit) ∧
    ((applyLimits limits s).cpuLimit =
      if optStrTruthy limits.cpuLimit then limits.cpuLimit.getD "" else s.cpuLimit) ∧
    ((applyLimits limits s).timeoutMs =
      if optNatTruthy limits.timeoutMs then limits.timeoutMs.getD 0 else s.timeoutMs) ∧
    (applyLimits limits s).sessionId = s.sessionId ∧
    (applyLimits limits s).containerId = s.containerId ∧
    (applyLimits limits s).createdAt = s.createdAt ∧
    (applyLimits limits s).lastActivityAt = s.lastActivityAt ∧
    (applyLimits limits s).diskLimit = s.diskLimit ∧
    (applyLimits limits s).isActive = s.isActive ∧
    (∀ id2, id2 ≠ id →
      lookupSession (updateSessionLimits st id limits dockerOk).2.sessions id2 =
        lookupSession st.sessions id2) := by
  have hstate := updateSessionLimits_state st id s limits dockerOk
    (validateSession_ok st id s h ha)
  have hfields := applyLimits_fields limits s
  refine ⟨?_, hfields.1, hfields.2.1, hfields.2.2.1, hfields.2.2.2.1,
    hfields.2.2.2.2.1, hfields.2.2.2.2.2.1, hfields.2.2.2.2.2.2.1,
    hfields.2.2.2.2.2.2.2.1, hfields.2.2.2.2.2.2.2.2, ?_⟩
  · rw [hstate]
    simp [lookup_modify_self, h]
  · intro id2 hid2
    rw [hstate]
    exact lookup_modify_other st.sessions id id2 (applyLimits limits) hid2

/-- Witness for C8 amended: on st0 a truthy cpu update is applied and the
session keeps its other fields. -/
theorem updateSessionLimits_truthy_fields_only_witness :
    lookupSession (updateSessionLimits st0 "s1"
        { cpuLimit := some "2" } true).2.sessions "s1" =
      some (applyLimits { cpuLimit := some "2" } sess1) :=
  (updateSessionLimits_truthy_fields_only st0 "s1" sess1
    { cpuLimit := some "2" } true rfl rfl).1

/-- C9: for every existing active session, when the docker stats query fails
getSessionHealth does not throw: it returns a degraded record carrying the
session identifier, the Registry view of isActive, and the explicit error
marker string. -/
theorem getSessionHealth_degraded_on_stats_failure (st : ManagerState) (id : String)
    (s : SandboxSession) (msg : String)
    (h : lookupSession st.sessions id = some s) (ha : s.isActive = true) :
    getSessionHealth st id (Except.error msg) =
      Except.ok (HealthStatus.degraded id s.isActive "Failed to retrieve health status") := by
  unfold getSessionHealth
  rw [validateSession_ok st id s h ha]

/-- Witness for C9: on st0 the degraded record is returned. -/
theorem getSessionHealth_degraded_on_stats_failure_witness :
    getSessionHealth st0 "s1" (Except.error "docker stats failed") =
      Except.ok (HealthStatus.degraded "s1" sess1.isActive
        "Failed to retrieve health status") :=
  getSessionHealth_degraded_on_stats_failure st0 "s1" sess1 "docker stats failed" rfl rfl

/-- C10: for every valid session, a write whose content is the empty string
is rejected with the missing-content error exactly as if no content had been
provided — the two calls are literally equal — and no call reaches the
backend, so an empty file can never be created through write. -/
theorem fileOperation_empty_content_write_rejected (st : ManagerState) (id : String)
    (s : SandboxSession) (p : String) (now : Nat) (backend : FileBackend)
    (h : lookupSession st.sessions id = some s) (ha : s.isActive = true) :
    fileOperation st id { type := FileOpType.write, path := p, content := some "" }
        now backend =
      fileOperation st id { type := FileOpType.write, path := p, content := none }
        now backend ∧
    (fileOperation st id { type := FileOpType.write, path := p, content := some "" }
        now backend).1 = Except.error FileOpError.missingContent ∧
    (fileOperation st id { type := FileOpType.write, path := p, content := some "" }
        now backend).2.2 = [] := by
  unfold fileOperation
  rw [validateSession_ok st id s h ha]
  exact ⟨rfl, rfl, rfl⟩

/-- Witness for C10: on st0 an empty-content write fails with the
missing-content error. -/
theorem fileOperation_empty_content_write_rejected_witness :
    (fileOperation st0 "s1" { type := FileOpType.write, path := "/a.txt", content := some "" }
        1000 { }).1 = Except.error FileOpError.missingContent :=
  (fileOperation_empty_content_write_rejected st0 "s1" sess1 "/a.txt" 1000 { } rfl rfl).2.1

end SandboxPlatform
